import Mathlib

/-!
Shallow embedding of the document ingestion / retrieval-augmented query
pipeline of Controllers/chatController.js.

External providers (Pinecone vector store, Google embedding and generation
models, the PDF/DOCX loaders and the text splitter) are modelled as
environment records of functions returning Except values; the handlers are
translated as pure functions that also return the ordered trace of
external-provider effects and, for ingestion, the filesystem outcome for
the staged temporary file.
-/

/-- A retrieved LangChain document, restricted to the single field the
controller reads. -/
structure Doc where
  pageContent : String
  deriving DecidableEq, Repr

/-- Metadata of a raw Pinecone query match; the controller reads
match.metadata.pageContent. -/
structure MatchMetadata where
  pageContent : String
  deriving DecidableEq, Repr

/-- A raw Pinecone query match as used by the controller. -/
structure QueryMatch where
  metadata : MatchMetadata
  deriving DecidableEq, Repr

/-- The uploaded file object (req.file from multer): buffer content, the
declared MIME type, and the client-supplied original filename. -/
structure UploadedFile where
  originalname : String
  mimetype : String
  buffer : String
  deriving DecidableEq, Repr

/-- Externally observable calls made by the handlers, in order. The
Option String argument of store operations is the namespace the call is
scoped to: some ns for an operation issued through a PineconeStore bound
to ns, none for an operation issued directly on the index, which Pinecone
scopes to the default namespace. -/
inductive Effect where
  | describeStats : Effect
  | embedQueryCall : String → Effect
  | searchCall : Option String → String → Nat → Effect
  | queryCall : Option String → List Int → Nat → Effect
  | generateCall : String → Effect
  | loadCall : String → String → Effect
  | upsertCall : Option String → Nat → Effect
  deriving DecidableEq, Repr

/-- HTTP responses produced by the two handlers: res.json for an answer,
res.json for the upload success object, res.status(400).json, and
res.status(500).json with a details field. -/
inductive Response where
  | answerOk : String → Response
  | uploadOk : String → String → Response
  | badRequest : String → Response
  | serverError : String → String → Response
  deriving DecidableEq, Repr

/-- The fixed namespace string used by the controller. -/
def eulerNamespace : String := "euler-namespace"

/-- The DOCX MIME type accepted by uploadDoc. -/
def docxMime : String :=
  "application/vnd.openxmlformats-officedocument.wordprocessingml.document"

/-- Message of the error thrown when PINECONE_INDEX_NAME is missing. -/
def idxMsg : String := "PINECONE_INDEX_NAME is not set in environment variables"

/-- Fixed answer returned when no relevant documents are found. -/
def noDocsMsg : String :=
  "Sorry, I couldn\x27t find any relevant documents to answer your question."

/-- The 400 body for a missing question. -/
def noQuestionMsg : String := "No question provided"

/-- The 400 body for a missing file. -/
def noFileMsg : String := "No file uploaded"

/-- The 400 body for an unsupported MIME type. -/
def invalidTypeMsg : String := "Invalid file type. Only PDF and DOCX are allowed."

/-- The 500 error field of questionAnswer. -/
def errProcessingQuestion : String := "Error processing question"

/-- The 500 error field of uploadDoc. -/
def errProcessingDocument : String := "Error processing document"

/-- The uploads directory, path.join of the controller directory with the
relative segment ../uploads; a fixed path at runtime. -/
def uploadsDir : String := "uploads"

/-- The prompt template of questionAnswer, interpolating context and
question. -/
def mkPrompt (context question : String) : String :=
  "\n    Context: " ++ context ++ "\n\n    Question: " ++ question ++
  "\n\n    Please provide a concise and accurate answer to the question based on the given context. If the context doesn\x27t contain enough information to answer the question, please state that.\n    "

/-- Environment of external collaborators for questionAnswer. embedQuery
takes the API key the code forwards to the embeddings client, mirroring
that GEMINI_API_KEY is passed through without a presence check. -/
structure QAEnv where
  geminiApiKey : Option String
  pineconeIndexName : Option String
  describeIndexStats : Except String Unit
  embedQuery : Option String → String → Except String (List Int)
  similaritySearch : Option String → String → Nat → Except String (List Doc)
  rawQuery : List Int → Nat → Except String (List QueryMatch)
  generate : String → Except String String

/-- Result of the query handler: the HTTP response plus the effect trace. -/
structure QAResult where
  response : Response
  trace : List Effect
  deriving DecidableEq, Repr

/-- Tail of questionAnswer from the final empty-check onwards: return the
fixed message on an empty document list, otherwise build the context and
prompt and invoke the generation model. -/
def finishWithDocs (env : QAEnv) (question : String) (relevantDocs : List Doc)
    (t : List Effect) : QAResult :=
  if relevantDocs.length = 0 then
    { response := .answerOk noDocsMsg, trace := t }
  else
    let context := String.intercalate "\n\n" (relevantDocs.map fun d => d.pageContent)
    let prompt := mkPrompt context question
    match env.generate prompt with
    | .error e =>
        { response := .serverError errProcessingQuestion e,
          trace := t ++ [.generateCall prompt] }
    | .ok answer =>
        { response := .answerOk answer, trace := t ++ [.generateCall prompt] }

/-- Body of questionAnswer after the question check: index-name check,
describeIndexStats, question embedding, top-3 similarity search in the
fixed namespace, raw top-10 fallback query on the bare index when the
search is empty, then finishWithDocs. A thrown or rejected step is caught
by the surrounding try/catch and becomes a 500 response. -/
def qaMain (env : QAEnv) (question : String) : QAResult :=
  match env.pineconeIndexName with
  | none => { response := .serverError errProcessingQuestion idxMsg, trace := [] }
  | some _ =>
    match env.describeIndexStats with
    | .error e =>
        { response := .serverError errProcessingQuestion e, trace := [.describeStats] }
    | .ok _ =>
      match env.embedQuery env.geminiApiKey question with
      | .error e =>
          { response := .serverError errProcessingQuestion e,
            trace := [.describeStats, .embedQueryCall question] }
      | .ok questionEmbedding =>
        match env.similaritySearch (some eulerNamespace) question 3 with
        | .error e =>
            { response := .serverError errProcessingQuestion e,
              trace := [.describeStats, .embedQueryCall question,
                        .searchCall (some eulerNamespace) question 3] }
        | .ok relevantDocs =>
          if relevantDocs.length = 0 then
            match env.rawQuery questionEmbedding 10 with
            | .error e =>
                { response := .serverError errProcessingQuestion e,
                  trace := [.describeStats, .embedQueryCall question,
                            .searchCall (some eulerNamespace) question 3,
                            .queryCall none questionEmbedding 10] }
            | .ok ms =>
                finishWithDocs env question
                  (ms.map fun m => Doc.mk m.metadata.pageContent)
                  [.describeStats, .embedQueryCall question,
                   .searchCall (some eulerNamespace) question 3,
                   .queryCall none questionEmbedding 10]
          else
            finishWithDocs env question relevantDocs
              [.describeStats, .embedQueryCall question,
               .searchCall (some eulerNamespace) question 3]

/-- The questionAnswer handler: req.body.question is modelled as an
Option String; the JS truthiness test rejects both a missing question and
the empty string. -/
def questionAnswer (env : QAEnv) (question : Option String) : QAResult :=
  match question with
  | none => { response := .badRequest noQuestionMsg, trace := [] }
  | some q =>
    if q = "" then { response := .badRequest noQuestionMsg, trace := [] }
    else qaMain env q

/-- Environment of external collaborators for uploadDoc. splitDocuments
receives the chunk size and overlap the code configures; fromDocuments
receives the forwarded API key, the chunks and the namespace, and stands
for the embed-and-upsert performed by PineconeStore.fromDocuments. -/
structure UpEnv where
  geminiApiKey : Option String
  pineconeIndexName : Option String
  pdfLoad : String → Except String (List Doc)
  docxLoad : String → Except String (List Doc)
  splitDocuments : Nat → Nat → List Doc → Except String (List Doc)
  fromDocuments : Option String → List Doc → Option String → Except String Unit

/-- Result of the upload handler: response, the path the file buffer was
written to (none when no write happened), whether the staged file still
exists when the handler returns, and the provider effect trace. -/
structure UploadResult where
  response : Response
  stagedPath : Option String
  fileExists : Bool
  trace : List Effect
  deriving DecidableEq, Repr

/-- Continuation of uploadDoc after a loader was selected and run: split
into 1000/200 chunks, check PINECONE_INDEX_NAME, upsert via
PineconeStore.fromDocuments under the fixed namespace, delete the staged
file, and answer. A failure in any of these steps is caught by the
surrounding try/catch and becomes a 500 response with the staged file
still on disk, because the catch block performs no cleanup. -/
def afterLoad (env : UpEnv) (tempFilePath : String)
    (loaded : Except String (List Doc)) (le : Effect) : UploadResult :=
  match loaded with
  | .error e =>
      { response := .serverError errProcessingDocument e,
        stagedPath := some tempFilePath, fileExists := true, trace := [le] }
  | .ok rawDocs =>
    match env.splitDocuments 1000 200 rawDocs with
    | .error e =>
        { response := .serverError errProcessingDocument e,
          stagedPath := some tempFilePath, fileExists := true, trace := [le] }
    | .ok docs =>
      match env.pineconeIndexName with
      | none =>
          { response := .serverError errProcessingDocument idxMsg,
            stagedPath := some tempFilePath, fileExists := true, trace := [le] }
      | some _ =>
        match env.fromDocuments env.geminiApiKey docs (some eulerNamespace) with
        | .error e =>
            { response := .serverError errProcessingDocument e,
              stagedPath := some tempFilePath, fileExists := true,
              trace := [le, .upsertCall (some eulerNamespace) docs.length] }
        | .ok _ =>
            { response := .uploadOk "success" "Document processed and stored",
              stagedPath := some tempFilePath, fileExists := false,
              trace := [le, .upsertCall (some eulerNamespace) docs.length] }

/-- Body of uploadDoc for a present file. The file buffer is written to
uploadsDir/originalname BEFORE the MIME type is inspected; an unsupported
type deletes the just-staged file and answers 400; a supported type runs
the matching loader and continues in afterLoad. -/
def uploadFile (env : UpEnv) (f : UploadedFile) : UploadResult :=
  if f.mimetype = "application/pdf" then
    afterLoad env (uploadsDir ++ "/" ++ f.originalname)
      (env.pdfLoad (uploadsDir ++ "/" ++ f.originalname))
      (Effect.loadCall "pdf" (uploadsDir ++ "/" ++ f.originalname))
  else if f.mimetype = docxMime then
    afterLoad env (uploadsDir ++ "/" ++ f.originalname)
      (env.docxLoad (uploadsDir ++ "/" ++ f.originalname))
      (Effect.loadCall "docx" (uploadsDir ++ "/" ++ f.originalname))
  else
    { response := .badRequest invalidTypeMsg,
      stagedPath := some (uploadsDir ++ "/" ++ f.originalname),
      fileExists := false, trace := [] }

/-- The uploadDoc handler: req.file is modelled as an Option UploadedFile
and a missing file is rejected with a 400 before anything else happens. -/
def uploadDoc (env : UpEnv) (file : Option UploadedFile) : UploadResult :=
  match file with
  | none =>
      { response := .badRequest noFileMsg, stagedPath := none,
        fileExists := false, trace := [] }
  | some f => uploadFile env f

/-- Module-level Pinecone client construction: the store API key read from
the environment is handed to the external SDK constructor unchanged, with
no presence check anywhere in this code. -/
def pineconeClientKey (storeApiKey : Option String) : Option String := storeApiKey

/-- Namespace discipline of a store effect: PineconeStore-mediated search
and upsert are bound to the fixed namespace, while the raw index query
carries no namespace. -/
def nsOkB : Effect → Bool
  | .searchCall ns _ _ => ns == some eulerNamespace
  | .upsertCall ns _ => ns == some eulerNamespace
  | .queryCall ns _ _ => ns == none
  | _ => true

/-- True on every effect except an invocation of the generation model. -/
def notGenerateB : Effect → Bool
  | .generateCall _ => false
  | _ => true

/-- A query environment whose similarity search is empty while the raw
fallback query finds one match. -/
def envFallback : QAEnv where
  geminiApiKey := some "gk"
  pineconeIndexName := some "idx"
  describeIndexStats := .ok ()
  embedQuery := fun _ _ => .ok [7]
  similaritySearch := fun _ _ _ => .ok []
  rawQuery := fun _ _ => .ok [⟨⟨"fallback chunk"⟩⟩]
  generate := fun _ => .ok "generated answer"

/-- A query environment where both the search and the fallback query come
back empty. -/
def envNoDocs : QAEnv where
  geminiApiKey := some "gk"
  pineconeIndexName := some "idx"
  describeIndexStats := .ok ()
  embedQuery := fun _ _ => .ok [2]
  similaritySearch := fun _ _ _ => .ok []
  rawQuery := fun _ _ => .ok []
  generate := fun _ => .ok "generated answer"

/-- A query environment with no generation/embedding API key, whose
embedding provider rejects the call for that reason. -/
def envNoKey : QAEnv where
  geminiApiKey := none
  pineconeIndexName := some "idx"
  describeIndexStats := .ok ()
  embedQuery := fun k _ => match k with
    | none => .error "API key missing from provider request"
    | some _ => .ok [1]
  similaritySearch := fun _ _ _ => .ok [⟨"chunk"⟩]
  rawQuery := fun _ _ => .ok []
  generate := fun _ => .ok "generated answer"

/-- A query environment with PINECONE_INDEX_NAME unset. -/
def envNoIdx : QAEnv where
  geminiApiKey := some "gk"
  pineconeIndexName := none
  describeIndexStats := .ok ()
  embedQuery := fun _ _ => .ok [1]
  similaritySearch := fun _ _ _ => .ok [⟨"chunk"⟩]
  rawQuery := fun _ _ => .ok []
  generate := fun _ => .ok "generated answer"

/-- An upload environment whose splitter produces two chunks. -/
def envU2 : UpEnv where
  geminiApiKey := some "gk"
  pineconeIndexName := some "idx"
  pdfLoad := fun _ => .ok [⟨"raw page"⟩]
  docxLoad := fun _ => .ok [⟨"raw page"⟩]
  splitDocuments := fun _ _ _ => .ok [⟨"c1"⟩, ⟨"c2"⟩]
  fromDocuments := fun _ _ _ => .ok ()

/-- An upload environment whose splitter produces three chunks. -/
def envU3 : UpEnv where
  geminiApiKey := some "gk"
  pineconeIndexName := some "idx"
  pdfLoad := fun _ => .ok [⟨"raw page"⟩]
  docxLoad := fun _ => .ok [⟨"raw page"⟩]
  splitDocuments := fun _ _ _ => .ok [⟨"c1"⟩, ⟨"c2"⟩, ⟨"c3"⟩]
  fromDocuments := fun _ _ _ => .ok ()

/-- An upload environment whose PDF loader fails, as on a corrupt file. -/
def envUBad : UpEnv where
  geminiApiKey := some "gk"
  pineconeIndexName := some "idx"
  pdfLoad := fun _ => .error "Invalid PDF structure"
  docxLoad := fun _ => .ok [⟨"raw page"⟩]
  splitDocuments := fun _ _ ds => .ok ds
  fromDocuments := fun _ _ _ => .ok ()

/-- A well-formed PDF upload. -/
def pdfFile : UploadedFile :=
  { originalname := "report.pdf", mimetype := "application/pdf", buffer := "pdfbytes" }

/-- A corrupt PDF upload. -/
def badPdfFile : UploadedFile :=
  { originalname := "bad.pdf", mimetype := "application/pdf", buffer := "garbage" }

/-- A plain-text upload, an unsupported MIME type. -/
def txtFile : UploadedFile :=
  { originalname := "notes.txt", mimetype := "text/plain", buffer := "hello" }

theorem uploadFile_stagedPath_eq (env : UpEnv) (f : UploadedFile) :
    (uploadFile env f).stagedPath = some (uploadsDir ++ "/" ++ f.originalname) := by
  simp only [uploadFile, afterLoad]
  (repeat' split) <;> rfl

theorem uploadDoc_stagedPath_eq (env : UpEnv) (f : UploadedFile) :
    (uploadDoc env (some f)).stagedPath = some (uploadsDir ++ "/" ++ f.originalname) :=
  uploadFile_stagedPath_eq env f

theorem afterLoad_ok_inv (env : UpEnv) (p : String) (r : Except String (List Doc))
    (le : Effect) (s m : String)
    (h : (afterLoad env p r le).response = .uploadOk s m) :
    s = "success" ∧ m = "Document processed and stored" := by
  cases r with
  | error e => simp [afterLoad] at h
  | ok rawDocs =>
    simp only [afterLoad] at h
    cases hs : env.splitDocuments 1000 200 rawDocs with
    | error e => simp only [hs] at h; simp at h
    | ok docs =>
      simp only [hs] at h
      cases hn : env.pineconeIndexName with
      | none => simp only [hn] at h; simp at h
      | some n =>
        simp only [hn] at h
        cases hf : env.fromDocuments env.geminiApiKey docs (some eulerNamespace) with
        | error e => simp only [hf] at h; simp at h
        | ok u =>
          simp only [hf] at h
          simp only [Response.uploadOk.injEq] at h
          exact ⟨h.1.symm, h.2.symm⟩

/-- C1: on an ingestion request whose PDF load fails after staging, the
handler returns a 500 response while the staged file still exists: the
catch path performs no cleanup, so the staged file is NOT deleted on every
exit path. This run evaluates the code at the failing input. -/
theorem C1_staged_file_leaks_on_load_failure :
    (uploadDoc envUBad (some badPdfFile)).response
      = .serverError errProcessingDocument "Invalid PDF structure"
  ∧ (uploadDoc envUBad (some badPdfFile)).stagedPath = some "uploads/bad.pdf"
  ∧ (uploadDoc envUBad (some badPdfFile)).fileExists = true :=
  ⟨rfl, rfl, rfl⟩

/-- C2 counterexample: two successful ingestions that upsert different
numbers of chunks (2 and 3) produce identical success responses, so the
success result cannot carry the number of chunks stored. -/
theorem C2_response_independent_of_chunk_count :
    (uploadDoc envU2 (some pdfFile)).response = (uploadDoc envU3 (some pdfFile)).response
  ∧ Effect.upsertCall (some eulerNamespace) 2 ∈ (uploadDoc envU2 (some pdfFile)).trace
  ∧ Effect.upsertCall (some eulerNamespace) 3 ∈ (uploadDoc envU3 (some pdfFile)).trace := by
  decide

/-- C2 amended: every successful ingestion returns the fixed success
status and message, with no chunk count in the response. -/
theorem C2_success_response_fixed (env : UpEnv) (file : Option UploadedFile)
    (s m : String) (h : (uploadDoc env file).response = .uploadOk s m) :
    (uploadDoc env file).response
      = .uploadOk "success" "Document processed and stored" := by
  obtain ⟨hs, hm⟩ : s = "success" ∧ m = "Document processed and stored" := by
    cases file with
    | none => simp [uploadDoc] at h
    | some f =>
      have h2 : (uploadFile env f).response = .uploadOk s m := h
      unfold uploadFile at h2
      split at h2
      · exact afterLoad_ok_inv _ _ _ _ _ _ h2
      · split at h2
        · exact afterLoad_ok_inv _ _ _ _ _ _ h2
        · simp at h2
  rw [h, hs, hm]

/-- C2 witness: a concrete successful ingestion returning the fixed
success response. -/
theorem C2_success_response_fixed_witness :
    (uploadDoc envU2 (some pdfFile)).response
      = .uploadOk "success" "Document processed and stored" :=
  C2_success_response_fixed envU2 (some pdfFile)
    "success" "Document processed and stored" rfl

/-- C6: an upload whose declared MIME type is neither PDF nor DOCX gets
the 400 invalid-type response and produces an empty provider trace: no
embedding and no store call is made. -/
theorem C6_unsupported_type_rejected_without_providers
    (env : UpEnv) (f : UploadedFile)
    (h1 : f.mimetype ≠ "application/pdf") (h2 : f.mimetype ≠ docxMime) :
    (uploadDoc env (some f)).response = .badRequest invalidTypeMsg
  ∧ (uploadDoc env (some f)).trace = [] := by
  simp [uploadDoc, uploadFile, h1, h2]

/-- C6 witness: a text/plain upload is rejected with no provider calls. -/
theorem C6_unsupported_type_witness :
    (uploadDoc envU2 (some txtFile)).response = .badRequest invalidTypeMsg
  ∧ (uploadDoc envU2 (some txtFile)).trace = [] :=
  C6_unsupported_type_rejected_without_providers envU2 txtFile
    (by decide) (by decide)

/-- C7 counterexample: a text/plain upload, an unsupported type, is
nevertheless written to the staging path before the MIME check, so the
unsupported file IS staged to disk, contradicting validation-first. -/
theorem C7_unsupported_file_is_staged :
    (uploadDoc envU2 (some txtFile)).stagedPath = some "uploads/notes.txt"
  ∧ (uploadDoc envU2 (some txtFile)).response = .badRequest invalidTypeMsg :=
  ⟨rfl, rfl⟩

/-- C7 amended: staging precedes validation: an unsupported upload is
first written to the staging path, then the staged copy is deleted and the
400 response returned, so the staged file does not persist. -/
theorem C7_staging_precedes_validation (env : UpEnv) (f : UploadedFile)
    (h1 : f.mimetype ≠ "application/pdf") (h2 : f.mimetype ≠ docxMime) :
    (uploadDoc env (some f)).stagedPath = some (uploadsDir ++ "/" ++ f.originalname)
  ∧ (uploadDoc env (some f)).fileExists = false
  ∧ (uploadDoc env (some f)).response = .badRequest invalidTypeMsg := by
  simp [uploadDoc, uploadFile, h1, h2]

/-- C7 witness: the amended statement at a concrete text/plain upload. -/
theorem C7_staging_precedes_validation_witness :
    (uploadDoc envU2 (some txtFile)).stagedPath
      = some (uploadsDir ++ "/" ++ txtFile.originalname)
  ∧ (uploadDoc envU2 (some txtFile)).fileExists = false
  ∧ (uploadDoc envU2 (some txtFile)).response = .badRequest invalidTypeMsg :=
  C7_staging_precedes_validation envU2 txtFile (by decide) (by decide)

/-- C10: the staging path is exactly the uploads directory joined with the
client-supplied original filename, independent of environment, content and
MIME type; two uploads sharing an originalname stage to the same path. -/
theorem C10_staging_path_is_join_of_originalname
    (env env2 : UpEnv) (f f2 : UploadedFile)
    (h : f.originalname = f2.originalname) :
    (uploadDoc env (some f)).stagedPath = some (uploadsDir ++ "/" ++ f.originalname)
  ∧ (uploadDoc env (some f)).stagedPath = (uploadDoc env2 (some f2)).stagedPath := by
  refine ⟨uploadDoc_stagedPath_eq env f, ?_⟩
  rw [uploadDoc_stagedPath_eq, uploadDoc_stagedPath_eq, h]

/-- C10 witness: a PDF and a text file with the same originalname stage to
the same path. -/
theorem C10_staging_path_witness :
    (uploadDoc envU2 (some pdfFile)).stagedPath
      = some (uploadsDir ++ "/" ++ pdfFile.originalname)
  ∧ (uploadDoc envU2 (some pdfFile)).stagedPath
      = (uploadDoc envUBad (some ⟨"report.pdf", "text/plain", "x"⟩)).stagedPath :=
  C10_staging_path_is_join_of_originalname envU2 envUBad pdfFile
    ⟨"report.pdf", "text/plain", "x"⟩ rfl

/-- C8: a missing question and an empty question each get the 400
BadRequest body, with an empty provider trace: no embedding, no store
query, no generation. -/
theorem C8_empty_question_rejected_without_providers :
    (∀ env : QAEnv, (questionAnswer env none).response = .badRequest noQuestionMsg
      ∧ (questionAnswer env none).trace = [])
  ∧ (∀ env : QAEnv, (questionAnswer env (some "")).response = .badRequest noQuestionMsg
      ∧ (questionAnswer env (some "")).trace = []) := by
  constructor <;> intro env <;> simp [questionAnswer]

/-- C3 counterexample: in a run whose primary search is empty, the search
effect is scoped to the fixed namespace while the fallback raw query is
issued with no namespace, which differs from the fixed one. -/
theorem C3_fallback_namespace_differs :
    Effect.searchCall (some eulerNamespace) "q" 3
      ∈ (questionAnswer envFallback (some "q")).trace
  ∧ Effect.queryCall none [7] 10 ∈ (questionAnswer envFallback (some "q")).trace
  ∧ (none : Option String) ≠ some eulerNamespace := by
  refine ⟨?_, ?_, by simp⟩ <;> decide

/-- C3 amended: in every run of either handler, the PineconeStore-mediated
similarity search and upsert are scoped to the fixed namespace, while the
raw fallback query is always issued without a namespace, hence against the
default namespace of the index. -/
theorem C3_namespace_discipline :
    (∀ (env : QAEnv) (q : Option String), (questionAnswer env q).trace.all nsOkB = true)
  ∧ (∀ (env : UpEnv) (f : Option UploadedFile), (uploadDoc env f).trace.all nsOkB = true) := by
  constructor
  · intro env q
    cases q with
    | none => rfl
    | some s =>
      simp only [questionAnswer, qaMain, finishWithDocs]
      (repeat' split) <;> simp [nsOkB]
  · intro env f
    cases f with
    | none => rfl
    | some fl =>
      simp only [uploadDoc, uploadFile, afterLoad]
      (repeat' split) <;> simp [nsOkB]

/-- C4: when the primary top-3 search in the fixed namespace is empty and
the raw top-10 query on the question embedding returns at least one match,
the handler builds its context from the pageContent metadata of those
matches and proceeds to generation, so the fixed no-documents message is
not produced. -/
theorem C4_fallback_results_used (env : QAEnv) (q n : String) (v : List Int)
    (ms : List QueryMatch)
    (hq : q ≠ "")
    (hidx : env.pineconeIndexName = some n)
    (hstats : env.describeIndexStats = .ok ())
    (hemb : env.embedQuery env.geminiApiKey q = .ok v)
    (hsearch : env.similaritySearch (some eulerNamespace) q 3 = .ok [])
    (hquery : env.rawQuery v 10 = .ok ms)
    (hms : ms ≠ []) :
    Effect.queryCall none v 10 ∈ (questionAnswer env (some q)).trace
  ∧ Effect.generateCall
      (mkPrompt (String.intercalate "\n\n" (ms.map fun m => m.metadata.pageContent)) q)
      ∈ (questionAnswer env (some q)).trace
  ∧ (questionAnswer env (some q)).response
      = (match env.generate (mkPrompt (String.intercalate "\n\n"
            (ms.map fun m => m.metadata.pageContent)) q) with
        | .ok a => Response.answerOk a
        | .error e => Response.serverError errProcessingQuestion e) := by
  have hlen : ¬ (ms.map fun m => Doc.mk m.metadata.pageContent).length = 0 := by
    simpa using hms
  simp only [questionAnswer, if_neg hq, qaMain, hidx, hstats, hemb, hsearch,
    List.length_nil, if_pos rfl, hquery, finishWithDocs, if_neg hlen,
    List.map_map, Function.comp_def]
  cases hg : env.generate (mkPrompt (String.intercalate "\n\n"
      (ms.map fun m => m.metadata.pageContent)) q) with
  | error e => simp [hg]
  | ok a => simp [hg]

/-- C4 witness: a concrete run whose search is empty and whose fallback
returns one match; the answer is generated from the fallback chunk. -/
theorem C4_fallback_results_used_witness :
    Effect.queryCall none [7] 10 ∈ (questionAnswer envFallback (some "q")).trace
  ∧ Effect.generateCall (mkPrompt (String.intercalate "\n\n" ["fallback chunk"]) "q")
      ∈ (questionAnswer envFallback (some "q")).trace
  ∧ (questionAnswer envFallback (some "q")).response = .answerOk "generated answer" := by
  have h := C4_fallback_results_used envFallback "q" "idx" [7] [⟨⟨"fallback chunk"⟩⟩]
    (by decide) rfl rfl rfl rfl rfl (by decide)
  exact ⟨h.1, h.2.1, h.2.2⟩

/-- C5: when both the primary search and the raw fallback query return no
matches, the handler answers with the fixed no-documents message and its
trace contains no generation call. -/
theorem C5_no_docs_fixed_message_no_generation (env : QAEnv) (q n : String)
    (v : List Int)
    (hq : q ≠ "")
    (hidx : env.pineconeIndexName = some n)
    (hstats : env.describeIndexStats = .ok ())
    (hemb : env.embedQuery env.geminiApiKey q = .ok v)
    (hsearch : env.similaritySearch (some eulerNamespace) q 3 = .ok [])
    (hquery : env.rawQuery v 10 = .ok []) :
    (questionAnswer env (some q)).response = .answerOk noDocsMsg
  ∧ (questionAnswer env (some q)).trace.all notGenerateB = true := by
  simp [questionAnswer, if_neg hq, qaMain, hidx, hstats, hemb, hsearch, hquery,
    finishWithDocs, notGenerateB]

/-- C5 witness: a concrete run where both retrieval paths are empty. -/
theorem C5_no_docs_witness :
    (questionAnswer envNoDocs (some "hi")).response = .answerOk noDocsMsg
  ∧ (questionAnswer envNoDocs (some "hi")).trace.all notGenerateB = true :=
  C5_no_docs_fixed_message_no_generation envNoDocs "hi" "idx" [2]
    (by decide) rfl rfl rfl rfl rfl

/-- C9 counterexample: with the generation/embedding API key absent, the
handler still invokes the embedding provider and the request fails with
the provider message, not with a configuration error raised before the
provider call. -/
theorem C9_missing_key_reaches_provider :
    envNoKey.geminiApiKey = none
  ∧ Effect.embedQueryCall "hi" ∈ (questionAnswer envNoKey (some "hi")).trace
  ∧ (questionAnswer envNoKey (some "hi")).response
      = .serverError errProcessingQuestion "API key missing from provider request" := by
  decide

/-- C9 amended: a missing store index name fails fast in both handlers
with the descriptive configuration message and, for the query handler, an
empty provider trace; a missing generation/embedding API key is not
checked, the key is forwarded, and its absence surfaces as the downstream
provider error. -/
theorem C9_config_validation_behaviour :
    (∀ (env : QAEnv) (q : String), q ≠ "" → env.pineconeIndexName = none →
      (questionAnswer env (some q)).response = .serverError errProcessingQuestion idxMsg
      ∧ (questionAnswer env (some q)).trace = [])
  ∧ (∀ (env : UpEnv) (f : UploadedFile) (rd ds : List Doc),
      env.pineconeIndexName = none → f.mimetype = "application/pdf" →
      env.pdfLoad (uploadsDir ++ "/" ++ f.originalname) = .ok rd →
      env.splitDocuments 1000 200 rd = .ok ds →
      (uploadDoc env (some f)).response = .serverError errProcessingDocument idxMsg)
  ∧ (∀ (env : QAEnv) (q m : String) (n : String), q ≠ "" →
      env.pineconeIndexName = some n → env.describeIndexStats = .ok () →
      env.geminiApiKey = none → env.embedQuery none q = .error m →
      (questionAnswer env (some q)).response = .serverError errProcessingQuestion m
      ∧ Effect.embedQueryCall q ∈ (questionAnswer env (some q)).trace) := by
  refine ⟨?_, ?_, ?_⟩
  · intro env q hq hidx
    simp [questionAnswer, if_neg hq, qaMain, hidx]
  · intro env f rd ds hidx hm hload hsplit
    simp [uploadDoc, uploadFile, hm, afterLoad, hload, hsplit, hidx]
  · intro env q m n hq hidx hstats hkey hemb
    simp [questionAnswer, if_neg hq, qaMain, hidx, hstats, hkey, hemb]

/-- C9 witness: with PINECONE_INDEX_NAME unset the query handler answers
the descriptive configuration message with no provider call. -/
theorem C9_config_validation_witness :
    (questionAnswer envNoIdx (some "hi")).response
      = .serverError errProcessingQuestion idxMsg
  ∧ (questionAnswer envNoIdx (some "hi")).trace = [] :=
  C9_config_validation_behaviour.1 envNoIdx "hi" (by decide) rfl
